import Mathlib

/-!
Shallow embedding of the scoring engine of `src/vendor_verifier.py`
(class `VendorScorerV3` and the `max_scores` display table).

The Python engine reads a vendor-answer dictionary; absent keys are read
with `dict.get`, sometimes with an explicit default, sometimes without
(yielding `None`).  We model the answer record as a structure of `Option`
fields, so that an absent key is `none` and a present key `k ↦ v` is
`some v`, and we mirror every `get` call with the exact default the
source uses at that call site.  All point values are modelled in `ℚ`:
the Python floats involved (multiples of 0.5 well below 2^53) are added
exactly, so `ℚ` is a faithful model of the arithmetic.
-/

/-- The vendor answer record: one `Option` field per dictionary key the
scoring engine reads.  `none` models an absent key. -/
structure VendorData where
  has_name : Option Bool := none
  has_phone : Option Bool := none
  has_address : Option Bool := none
  has_social_media : Option Bool := none
  has_id_photo : Option Bool := none
  guarantor_count : Option Nat := none
  registration_type : Option String := none
  has_supplier_proof : Option Bool := none
  has_operations_proof : Option Bool := none
  has_testimonials : Option Bool := none
  has_refund_policy : Option Bool := none
  has_delivery_info : Option Bool := none
  id_quality : Option String := none
  registration_quality : Option String := none
  supplier_quality : Option String := none
  operations_quality : Option String := none
  testimonial_quality : Option String := none
  responsiveness_rating : Option Nat := none
  communication_quality : Option String := none
  red_flags_count : Option Nat := none
deriving DecidableEq, Repr

/-- Python truthiness of `self.data.get(key)` for a boolean field:
an absent key gives `None`, which is falsy. -/
def truthy (o : Option Bool) : Bool := o.getD false

/-- The `reg_points` table (none 0, smedan 3, cac 5) looked up with
`.get(x, 0)` at lines 81-82: any other string silently maps to 0. -/
def reg_points (s : String) : ℚ :=
  if s = "none" then 0 else if s = "smedan" then 3 else if s = "cac" then 5 else 0

/-- The `quality_points` table (poor 1, acceptable 3, excellent 5) looked
up with `.get(x, 0)` at line 95: any other string silently maps to 0. -/
def quality_points (s : String) : ℚ :=
  if s = "poor" then 1 else if s = "acceptable" then 3 else if s = "excellent" then 5 else 0

/-- The `testimonial_points` table (suspicious 0, mixed 5, authentic 10)
looked up with `.get(x, 0)` at lines 104-105. -/
def testimonial_points (s : String) : ℚ :=
  if s = "suspicious" then 0 else if s = "mixed" then 5 else if s = "authentic" then 10 else 0

/-- The `comm_points` table (unprofessional 0, professional 10) looked up
at lines 122-123 as a `get` with default 0 applied to a `get` with no
default: an absent key gives `None`, which the outer lookup maps to 0. -/
def commLookup (o : Option String) : ℚ :=
  match o with
  | none => 0
  | some s => if s = "professional" then 10 else 0

/-- Basic Information category (lines 68-74): name 3, phone 4, address 4,
social media 4. -/
def basicInfoScore (d : VendorData) : ℚ :=
  (if truthy d.has_name then 3 else 0) +
  (if truthy d.has_phone then 4 else 0) +
  (if truthy d.has_address then 4 else 0) +
  (if truthy d.has_social_media then 4 else 0)

/-- Documents Submitted category (lines 76-88): id photo 5, guarantors
2.5 each, registration via `reg_points` with default key none,
supplier proof 5, operations proof 5, testimonials 2.5. -/
def documentsScore (d : VendorData) : ℚ :=
  (if truthy d.has_id_photo then 5 else 0) +
  (d.guarantor_count.getD 0 : ℚ) * 2.5 +
  reg_points (d.registration_type.getD "none") +
  (if truthy d.has_supplier_proof then 5 else 0) +
  (if truthy d.has_operations_proof then 5 else 0) +
  (if truthy d.has_testimonials then 2.5 else 0)

/-- Source method `calculate_auto_score` (lines 64-91) returns the Basic
Information score plus the Documents Submitted score. -/
def calculate_auto_score (d : VendorData) : ℚ :=
  basicInfoScore d + documentsScore d

/-- Source method `calculate_quality_score` (lines 93-112): four quality
lookups with default key poor, testimonial lookup with default key
suspicious, refund policy 2.5, delivery info 2.5. -/
def calculate_quality_score (d : VendorData) : ℚ :=
  quality_points (d.id_quality.getD "poor") +
  quality_points (d.registration_quality.getD "poor") +
  quality_points (d.supplier_quality.getD "poor") +
  quality_points (d.operations_quality.getD "poor") +
  testimonial_points (d.testimonial_quality.getD "suspicious") +
  (if truthy d.has_refund_policy then 2.5 else 0) +
  (if truthy d.has_delivery_info then 2.5 else 0)

/-- The red-flag count read with default 0 (line 126). -/
def red_flags (d : VendorData) : Nat := d.red_flags_count.getD 0

/-- The WhatsApp interaction score before the red-flag penalty
(lines 118-123): responsiveness (default 1) times 2, plus the
communication lookup. -/
def interactionPreScore (d : VendorData) : ℚ :=
  (d.responsiveness_rating.getD 1 : ℚ) * 2 + commLookup d.communication_quality

/-- The red-flag penalty `min(red_flags * 5, score)` (line 127). -/
def interactionPenalty (d : VendorData) : ℚ :=
  min ((red_flags d : ℚ) * 5) (interactionPreScore d)

/-- Source method `calculate_interaction_score` (lines 114-135):
pre-penalty score minus the capped penalty. -/
def calculate_interaction_score (d : VendorData) : ℚ :=
  interactionPreScore d - interactionPenalty d

/-- Source method `calculate_total_score` (lines 137-144): auto +
quality + interaction. -/
def calculate_total_score (d : VendorData) : ℚ :=
  calculate_auto_score d + calculate_quality_score d + calculate_interaction_score d

/-- Python dict assignment on an insertion-ordered dict: replace the value
in place when the key is present, append otherwise. -/
def dictSet (m : List (String × ℚ)) (k : String) (v : ℚ) : List (String × ℚ) :=
  match m with
  | [] => [(k, v)]
  | (k₀, v₀) :: rest => if k₀ = k then (k, v) :: rest else (k₀, v₀) :: dictSet rest k v

/-- The `self.category_scores` dict after `calculate_total_score` has run:
the four category assignments in source order (lines 74, 88, 111, 130),
plus the `Red Flags Penalty` entry when `red_flags > 0` (lines 132-133). -/
def category_scores (d : VendorData) : List (String × ℚ) :=
  let m := dictSet [] "Basic Information" (basicInfoScore d)
  let m := dictSet m "Documents Submitted" (documentsScore d)
  let m := dictSet m "Document Quality" (calculate_quality_score d)
  let m := dictSet m "WhatsApp Interaction" (calculate_interaction_score d)
  if 0 < red_flags d then dictSet m "Red Flags Penalty" (-(interactionPenalty d)) else m

/-- `sum(category_scores.values())`. -/
def dictValuesSum (m : List (String × ℚ)) : ℚ := (m.map Prod.snd).sum

/-- Source method `generate_recommendations` (lines 146-171), rules in
source order. -/
def generate_recommendations (d : VendorData) : List String :=
  (if ¬ truthy d.has_name then ["❌ Obtain complete business/individual name"] else []) ++
  (if ¬ truthy d.has_phone then ["📞 Verify phone number"] else []) ++
  (if ¬ truthy d.has_address then ["🏠 Request complete address"] else []) ++
  (if ¬ truthy d.has_id_photo then ["🆔 Require ID photo upload"] else []) ++
  (if d.guarantor_count.getD 0 < 2 then ["👥 Request at least 2 guarantor contacts"] else []) ++
  (if d.registration_type = some "none" then ["📋 Request business registration (CAC/SMEDAN)"] else []) ++
  (if ¬ truthy d.has_supplier_proof then ["📄 Obtain supplier documentation"] else []) ++
  (if ¬ truthy d.has_operations_proof then ["🏭 Request proof of business operations"] else []) ++
  (if d.testimonial_quality = some "suspicious" ∨ d.testimonial_quality = some "mixed" then
    ["⭐ Verify customer testimonials authenticity"] else []) ++
  (if d.responsiveness_rating.getD 5 < 3 then ["⏰ Address slow response time concerns"] else []) ++
  (if d.communication_quality = some "unprofessional" then ["💬 Provide communication guidelines"] else [])

/-- Source method `identify_risk_factors` (lines 173-190), rules in
source order.  Line 178 interpolates the red-flag count into the message,
and the membership/equality tests on lines 179-189 use `get` with no
default, so an absent key (`None`) never matches. -/
def identify_risk_factors (d : VendorData) : List String :=
  (if 0 < red_flags d then ["🚩 " ++ toString (red_flags d) ++ " red flags identified"] else []) ++
  (if d.testimonial_quality = some "suspicious" then ["⚠️ Suspicious testimonials detected"] else []) ++
  (if d.communication_quality = some "unprofessional" then ["💬 Unprofessional communication style"] else []) ++
  (if d.responsiveness_rating.getD 5 = 1 then ["⏰ Very poor responsiveness"] else []) ++
  (if ¬ truthy d.has_id_photo then ["🆔 No ID verification completed"] else []) ++
  (if d.registration_type = some "none" then ["🏢 No business registration on file"] else []) ++
  (if d.id_quality = some "poor" then ["📸 Poor quality ID documentation"] else [])

/-- The badge record returned by `get_badge` (lines 192-214). -/
structure Badge where
  badge : String
  status : String
  description : String
  color : String
deriving DecidableEq, Repr

/-- Source method `get_badge` (lines 192-214) as a function of the
stored total score. -/
def get_badge (total : ℚ) : Badge :=
  if 80 ≤ total then
    ⟨"🟢 Green (Verified)", "APPROVED", "Low risk vendor with strong verification", "#10b981"⟩
  else if 60 ≤ total then
    ⟨"🟡 Yellow (Conditional)", "CONDITIONAL",
      "Medium risk - proceed with caution and monitoring", "#f59e0b"⟩
  else
    ⟨"🔴 Red (Rejected)", "REJECTED", "High risk - requires significant improvements", "#ef4444"⟩

/-- The full output of one engine invocation, as produced at lines
475-486: total score, category dict, badge, and the two advisory lists. -/
structure EngineResult where
  cats : List (String × ℚ)
  total : ℚ
  badge : Badge
  recs : List String
  risks : List String
deriving DecidableEq, Repr

/-- One full engine run: `calculate_total_score`, then
`generate_recommendations`, `identify_risk_factors`, `get_badge`
(lines 476-480). -/
def runEngine (d : VendorData) : EngineResult :=
  { cats := category_scores d
    total := calculate_total_score d
    badge := get_badge (calculate_total_score d)
    recs := generate_recommendations d
    risks := identify_risk_factors d }

/-- The `max_scores` display table (lines 522-527), looked up with
`.get(category, 0)`. -/
def max_scores (c : String) : ℚ :=
  if c = "Basic Information" then 15
  else if c = "Documents Submitted" then 25
  else if c = "Document Quality" then 35
  else if c = "WhatsApp Interaction" then 25
  else 0

/-! ## Concrete records used in closed theorems -/

/-- A record whose only present key is one red flag. -/
def flaggedRecord : VendorData := { red_flags_count := some 1 }

/-- The all-worst record: every field present and set to its lowest
category, with zero red flags. -/
def worstRecord : VendorData :=
  { has_name := some false, has_phone := some false, has_address := some false,
    has_social_media := some false, has_id_photo := some false,
    guarantor_count := some 0, registration_type := some "none",
    has_supplier_proof := some false, has_operations_proof := some false,
    has_testimonials := some false, has_refund_policy := some false,
    has_delivery_info := some false,
    id_quality := some "poor", registration_quality := some "poor",
    supplier_quality := some "poor", operations_quality := some "poor",
    testimonial_quality := some "suspicious",
    responsiveness_rating := some 1, communication_quality := some "unprofessional",
    red_flags_count := some 0 }

/-- A record with every document field present: id photo, two guarantors,
cac registration, supplier proof, operations proof, testimonials. -/
def fullDocsRecord : VendorData :=
  { has_id_photo := some true, guarantor_count := some 2, registration_type := some "cac",
    has_supplier_proof := some true, has_operations_proof := some true,
    has_testimonials := some true }

/-- A record whose exact total is 79.5: basic 15, documents 27.5,
quality 17, interaction 20. -/
def halfPointRecord : VendorData :=
  { has_name := some true, has_phone := some true, has_address := some true,
    has_social_media := some true, has_id_photo := some true,
    guarantor_count := some 2, registration_type := some "cac",
    has_supplier_proof := some true, has_operations_proof := some true,
    has_testimonials := some true, has_refund_policy := some false,
    has_delivery_info := some false,
    id_quality := some "acceptable", registration_quality := some "acceptable",
    supplier_quality := some "acceptable", operations_quality := some "acceptable",
    testimonial_quality := some "mixed",
    responsiveness_rating := some 5, communication_quality := some "professional",
    red_flags_count := some 0 }

/-- The empty record: every key absent. -/
def emptyRecord : VendorData := {}

/-- A record whose only present key is a responsiveness rating of 1. -/
def rated1Record : VendorData := { responsiveness_rating := some 1 }

/-- A record whose registration type is a string outside the enumerated
domain of the registration table. -/
def badRegRecord : VendorData := { registration_type := some "unregistered" }

/-! ## Claim theorems -/

/-- C2: `get_badge` returns Verified/Green with status APPROVED iff the
total is at least 80, Conditional/Yellow iff the total is in [60, 80),
and Rejected/Red iff the total is below 60; 80 and 60 land in the higher
tier because the comparisons are non-strict. -/
theorem badge_thresholds_exact (t : ℚ) :
    ((get_badge t).status = "APPROVED" ↔ 80 ≤ t) ∧
    ((get_badge t).badge = "🟢 Green (Verified)" ↔ 80 ≤ t) ∧
    ((get_badge t).status = "CONDITIONAL" ↔ 60 ≤ t ∧ t < 80) ∧
    ((get_badge t).badge = "🟡 Yellow (Conditional)" ↔ 60 ≤ t ∧ t < 80) ∧
    ((get_badge t).status = "REJECTED" ↔ t < 60) ∧
    ((get_badge t).badge = "🔴 Red (Rejected)" ↔ t < 60) := by
  by_cases h80 : 80 ≤ t
  · have h60 : 60 ≤ t := le_trans (by norm_num) h80
    simp [get_badge, h80, h60]
  · by_cases h60 : 60 ≤ t
    · simp [get_badge, h80, h60]
      linarith [not_le.mp h80]
    · simp [get_badge, h80, h60]
      linarith [not_le.mp h60]

/-- C3: with a responsiveness rating in [1,5] present (and any red-flag
count, which is a non-negative machine integer modelled by `ℕ`), the
WhatsApp Interaction score is never negative, because the penalty
`min(red_flags * 5, score)` never exceeds the pre-penalty sub-score. -/
theorem interaction_never_negative (d : VendorData) (r : ℕ)
    (hr : d.responsiveness_rating = some r) (h1 : 1 ≤ r) (h5 : r ≤ 5) :
    interactionPenalty d ≤ interactionPreScore d ∧
    0 ≤ calculate_interaction_score d := by
  refine ⟨min_le_right _ _, ?_⟩
  have h := min_le_right ((red_flags d : ℚ) * 5) (interactionPreScore d)
  simp only [calculate_interaction_score, interactionPenalty]
  linarith

/-- Witness for C3 at a concrete record with rating 1. -/
theorem interaction_never_negative_witness :
    interactionPenalty worstRecord ≤ interactionPreScore worstRecord ∧
    0 ≤ calculate_interaction_score worstRecord :=
  interaction_never_negative worstRecord 1 rfl (by norm_num) (by norm_num)

/-- C7: the engine is deterministic: two invocations on identical input
records produce identical category scores, total, badge, and advisory
lists (list equality includes order, which is rule-definition order). -/
theorem engine_deterministic (d₁ d₂ : VendorData) (h : d₁ = d₂) :
    runEngine d₁ = runEngine d₂ := by rw [h]

/-- Witness for C7 at a concrete record. -/
theorem engine_deterministic_witness :
    runEngine halfPointRecord = runEngine halfPointRecord :=
  engine_deterministic halfPointRecord halfPointRecord rfl

/-- C10: the badge comparison uses the exact fractional total with no
prior rounding: a record with total exactly 79.5 is classified
CONDITIONAL (whereas its rounded value 80 would classify APPROVED), and
a total of exactly 59.5 is classified REJECTED. -/
theorem badge_uses_exact_fractional_total :
    calculate_total_score halfPointRecord = 159 / 2 ∧
    (runEngine halfPointRecord).badge.status = "CONDITIONAL" ∧
    (get_badge (159 / 2 + 1 / 2)).status = "APPROVED" ∧
    (get_badge (119 / 2)).status = "REJECTED" ∧
    (get_badge (119 / 2 + 1 / 2)).status = "CONDITIONAL" := by
  have h : calculate_total_score halfPointRecord = 159 / 2 := by
    simp [calculate_total_score, calculate_auto_score, basicInfoScore, documentsScore,
      calculate_quality_score, calculate_interaction_score, interactionPreScore,
      interactionPenalty, red_flags, commLookup, reg_points, quality_points,
      testimonial_points, truthy, halfPointRecord, min_def]
    norm_num
  refine ⟨h, ?_, by norm_num [get_badge], by norm_num [get_badge], by norm_num [get_badge]⟩
  simp only [runEngine, h]
  norm_num [get_badge]

/-- The pair (category-score dict, total) produced by one scoring pass. -/
def scoringOutput (d : VendorData) : List (String × ℚ) × ℚ :=
  (category_scores d, calculate_total_score d)

/-- C1 counterexample: with one red flag present, the sum of the values
of `category_scores` is 2 while the total is 4 — the capped penalty is
subtracted inside the WhatsApp Interaction entry and recorded again as
the negative Red Flags Penalty entry, so the claimed identity fails. -/
theorem sum_values_ne_total_with_flag :
    dictValuesSum (category_scores flaggedRecord) ≠ calculate_total_score flaggedRecord := by
  have hs : dictValuesSum (category_scores flaggedRecord) = 2 := by
    simp [dictValuesSum, category_scores, dictSet, basicInfoScore, documentsScore,
      calculate_quality_score, calculate_interaction_score, interactionPreScore,
      interactionPenalty, red_flags, commLookup, reg_points, quality_points,
      testimonial_points, truthy, flaggedRecord, min_def]
    norm_num
  have ht : calculate_total_score flaggedRecord = 4 := by
    simp [calculate_total_score, calculate_auto_score, basicInfoScore, documentsScore,
      calculate_quality_score, calculate_interaction_score, interactionPreScore,
      interactionPenalty, red_flags, commLookup, reg_points, quality_points,
      testimonial_points, truthy, flaggedRecord, min_def]
    norm_num
  rw [hs, ht]
  norm_num

/-- C1 amended: the total equals the sum of the four main category
entries; when red flags are present the dict holds an extra
Red Flags Penalty entry equal to minus the capped penalty, so the sum of
all values equals the total minus that penalty. -/
theorem sum_values_eq_total_minus_penalty (d : VendorData) :
    dictValuesSum (category_scores d) =
      calculate_total_score d -
        (if 0 < red_flags d then interactionPenalty d else 0) := by
  by_cases h : 0 < red_flags d <;>
    simp [dictValuesSum, category_scores, dictSet, h, calculate_total_score,
      calculate_auto_score] <;>
    ring

/-- C4: with every document field present (id photo, two guarantors, cac
registration, supplier proof, operations proof, testimonials), the
Documents Submitted score is 27.5, exceeding the maximum of 25 declared
both by the source comment and by its own `max_scores` table. -/
theorem documents_score_exceeds_declared_max :
    documentsScore fullDocsRecord = 55 / 2 ∧
    max_scores "Documents Submitted" = 25 ∧
    25 < documentsScore fullDocsRecord := by
  have h : documentsScore fullDocsRecord = 55 / 2 := by
    simp [documentsScore, reg_points, truthy, fullDocsRecord]
    norm_num
  refine ⟨h, by simp [max_scores], by rw [h]; norm_num⟩

/-- C5 counterexample: the risk-factor list of the all-absent record
differs from that of the record whose responsiveness rating is set to
its worst value 1 — absent `responsiveness_rating` defaults to 5 in
`identify_risk_factors` (line 183), not to the worst value 1 that
`calculate_interaction_score` uses (line 119). -/
theorem absent_not_uniform_worst_default :
    identify_risk_factors emptyRecord ≠ identify_risk_factors rated1Record := by decide

/-- C5 amended: within score calculation (category dict and total), every
absent field behaves exactly as its worst category value; the advisory
generators do not share this convention. -/
theorem absent_defaults_worst_in_scoring (d : VendorData) :
    scoringOutput { d with has_name := none } = scoringOutput { d with has_name := some false } ∧
    scoringOutput { d with has_phone := none } = scoringOutput { d with has_phone := some false } ∧
    scoringOutput { d with has_address := none } = scoringOutput { d with has_address := some false } ∧
    scoringOutput { d with has_social_media := none } = scoringOutput { d with has_social_media := some false } ∧
    scoringOutput { d with has_id_photo := none } = scoringOutput { d with has_id_photo := some false } ∧
    scoringOutput { d with guarantor_count := none } = scoringOutput { d with guarantor_count := some 0 } ∧
    scoringOutput { d with registration_type := none } = scoringOutput { d with registration_type := some "none" } ∧
    scoringOutput { d with has_supplier_proof := none } = scoringOutput { d with has_supplier_proof := some false } ∧
    scoringOutput { d with has_operations_proof := none } = scoringOutput { d with has_operations_proof := some false } ∧
    scoringOutput { d with has_testimonials := none } = scoringOutput { d with has_testimonials := some false } ∧
    scoringOutput { d with has_refund_policy := none } = scoringOutput { d with has_refund_policy := some false } ∧
    scoringOutput { d with has_delivery_info := none } = scoringOutput { d with has_delivery_info := some false } ∧
    scoringOutput { d with id_quality := none } = scoringOutput { d with id_quality := some "poor" } ∧
    scoringOutput { d with registration_quality := none } = scoringOutput { d with registration_quality := some "poor" } ∧
    scoringOutput { d with supplier_quality := none } = scoringOutput { d with supplier_quality := some "poor" } ∧
    scoringOutput { d with operations_quality := none } = scoringOutput { d with operations_quality := some "poor" } ∧
    scoringOutput { d with testimonial_quality := none } = scoringOutput { d with testimonial_quality := some "suspicious" } ∧
    scoringOutput { d with responsiveness_rating := none } = scoringOutput { d with responsiveness_rating := some 1 } ∧
    scoringOutput { d with communication_quality := none } = scoringOutput { d with communication_quality := some "unprofessional" } ∧
    scoringOutput { d with red_flags_count := none } = scoringOutput { d with red_flags_count := some 0 } :=
  ⟨rfl, rfl, rfl, rfl, rfl, rfl, rfl, rfl, rfl, rfl,
   rfl, rfl, rfl, rfl, rfl, rfl, rfl, rfl, rfl, rfl⟩

/-- C8 counterexample: a registration type outside the enumerated domain
does not fail fast: the lookup silently yields 0 and the whole engine
run is identical to a run with the key absent — no error, no distinct
outcome. -/
theorem out_of_domain_no_error :
    reg_points "unregistered" = 0 ∧ runEngine badRegRecord = runEngine emptyRecord :=
  ⟨by simp [reg_points], rfl⟩

/-- C8 amended: every rule-table lookup silently maps a category string
outside its enumerated domain to the default contribution 0, and the
Documents Submitted score of such a record coincides with the score of a
record registered as none — the engine completes normally instead of
failing. -/
theorem out_of_domain_silently_zero (d : VendorData) (s t : String)
    (h1 : s ≠ "none") (h2 : s ≠ "smedan") (h3 : s ≠ "cac")
    (h4 : t ≠ "poor") (h5 : t ≠ "acceptable") (h6 : t ≠ "excellent") :
    reg_points s = 0 ∧ quality_points t = 0 ∧
    documentsScore { d with registration_type := some s } =
      documentsScore { d with registration_type := some "none" } := by
  refine ⟨by simp [reg_points, h1, h2, h3], by simp [quality_points, h4, h5, h6], ?_⟩
  simp [documentsScore, reg_points, h1, h2, h3]

/-- Witness for C8 amended at concrete out-of-domain strings. -/
theorem out_of_domain_silently_zero_witness :
    reg_points "abc" = 0 ∧ quality_points "xyz" = 0 ∧
    documentsScore { emptyRecord with registration_type := some "abc" } =
      documentsScore { emptyRecord with registration_type := some "none" } :=
  out_of_domain_silently_zero emptyRecord "abc" "xyz"
    (by decide) (by decide) (by decide) (by decide) (by decide) (by decide)

/-- C9 counterexample: the all-worst record does not score 0: the four
document-quality lookups each contribute 1 at their worst value poor and
the worst responsiveness rating 1 contributes 2, so the total is 6. -/
theorem worst_case_total_not_zero :
    calculate_total_score worstRecord ≠ 0 := by
  have h : calculate_total_score worstRecord = 6 := by
    simp [calculate_total_score, calculate_auto_score, basicInfoScore, documentsScore,
      calculate_quality_score, calculate_interaction_score, interactionPreScore,
      interactionPenalty, red_flags, commLookup, reg_points, quality_points,
      testimonial_points, truthy, worstRecord, min_def]
    norm_num
  rw [h]
  norm_num

/-- C9 amended: the all-worst record totals 6, is badged Rejected/Red,
has a non-empty recommendation list, and its risk factors include the
no-ID-verification and no-business-registration entries (the engine has
no phone-verification risk rule; the ID entry is the nearest). -/
theorem worst_case_outcome :
    calculate_total_score worstRecord = 6 ∧
    (get_badge (calculate_total_score worstRecord)).status = "REJECTED" ∧
    (get_badge (calculate_total_score worstRecord)).badge = "🔴 Red (Rejected)" ∧
    generate_recommendations worstRecord ≠ [] ∧
    "🆔 No ID verification completed" ∈ identify_risk_factors worstRecord ∧
    "🏢 No business registration on file" ∈ identify_risk_factors worstRecord := by
  have h : calculate_total_score worstRecord = 6 := by
    simp [calculate_total_score, calculate_auto_score, basicInfoScore, documentsScore,
      calculate_quality_score, calculate_interaction_score, interactionPreScore,
      interactionPenalty, red_flags, commLookup, reg_points, quality_points,
      testimonial_points, truthy, worstRecord, min_def]
    norm_num
  refine ⟨h, ?_, ?_, by decide, by decide, by decide⟩
  · rw [h]; norm_num [get_badge]
  · rw [h]; norm_num [get_badge]

/-- Helper: `x ↦ x - min c x` is monotone, i.e. raising a pre-penalty
score never lowers the post-penalty score under the cap `min c x`. -/
lemma sub_min_mono (a b c : ℚ) (hab : a ≤ b) : a - min c a ≤ b - min c b := by
  rcases le_total c a with h | h
  · rw [min_eq_left h]
    rcases le_total c b with h' | h'
    · rw [min_eq_left h']
      linarith
    · rw [min_eq_right h']
      linarith
  · rw [min_eq_right h]
    rcases le_total c b with h' | h'
    · rw [min_eq_left h']
      linarith
    · rw [min_eq_right h']
      linarith

/-- C6: improving any single field to a strictly higher-ranked category
value, holding all other fields fixed, never decreases the affected
category score: each boolean flips false to true, guarantors k to k+1,
registration none to smedan to cac, each quality poor to acceptable to
excellent, testimonials suspicious to mixed to authentic, responsiveness
k to k+1, communication unprofessional to professional, and red flags
k+1 down to k. -/
theorem single_field_improvement_monotone (d : VendorData) (k g : ℕ) :
    basicInfoScore { d with has_name := some false } ≤ basicInfoScore { d with has_name := some true } ∧
    basicInfoScore { d with has_phone := some false } ≤ basicInfoScore { d with has_phone := some true } ∧
    basicInfoScore { d with has_address := some false } ≤ basicInfoScore { d with has_address := some true } ∧
    basicInfoScore { d with has_social_media := some false } ≤ basicInfoScore { d with has_social_media := some true } ∧
    documentsScore { d with has_id_photo := some false } ≤ documentsScore { d with has_id_photo := some true } ∧
    documentsScore { d with guarantor_count := some g } ≤ documentsScore { d with guarantor_count := some (g + 1) } ∧
    documentsScore { d with registration_type := some "none" } ≤ documentsScore { d with registration_type := some "smedan" } ∧
    documentsScore { d with registration_type := some "smedan" } ≤ documentsScore { d with registration_type := some "cac" } ∧
    documentsScore { d with has_supplier_proof := some false } ≤ documentsScore { d with has_supplier_proof := some true } ∧
    documentsScore { d with has_operations_proof := some false } ≤ documentsScore { d with has_operations_proof := some true } ∧
    documentsScore { d with has_testimonials := some false } ≤ documentsScore { d with has_testimonials := some true } ∧
    calculate_quality_score { d with id_quality := some "poor" } ≤ calculate_quality_score { d with id_quality := some "acceptable" } ∧
    calculate_quality_score { d with id_quality := some "acceptable" } ≤ calculate_quality_score { d with id_quality := some "excellent" } ∧
    calculate_quality_score { d with registration_quality := some "poor" } ≤ calculate_quality_score { d with registration_quality := some "acceptable" } ∧
    calculate_quality_score { d with registration_quality := some "acceptable" } ≤ calculate_quality_score { d with registration_quality := some "excellent" } ∧
    calculate_quality_score { d with supplier_quality := some "poor" } ≤ calculate_quality_score { d with supplier_quality := some "acceptable" } ∧
    calculate_quality_score { d with supplier_quality := some "acceptable" } ≤ calculate_quality_score { d with supplier_quality := some "excellent" } ∧
    calculate_quality_score { d with operations_quality := some "poor" } ≤ calculate_quality_score { d with operations_quality := some "acceptable" } ∧
    calculate_quality_score { d with operations_quality := some "acceptable" } ≤ calculate_quality_score { d with operations_quality := some "excellent" } ∧
    calculate_quality_score { d with testimonial_quality := some "suspicious" } ≤ calculate_quality_score { d with testimonial_quality := some "mixed" } ∧
    calculate_quality_score { d with testimonial_quality := some "mixed" } ≤ calculate_quality_score { d with testimonial_quality := some "authentic" } ∧
    calculate_quality_score { d with has_refund_policy := some false } ≤ calculate_quality_score { d with has_refund_policy := some true } ∧
    calculate_quality_score { d with has_delivery_info := some false } ≤ calculate_quality_score { d with has_delivery_info := some true } ∧
    calculate_interaction_score { d with responsiveness_rating := some k } ≤ calculate_interaction_score { d with responsiveness_rating := some (k + 1) } ∧
    calculate_interaction_score { d with communication_quality := some "unprofessional" } ≤ calculate_interaction_score { d with communication_quality := some "professional" } ∧
    calculate_interaction_score { d with red_flags_count := some (k + 1) } ≤ calculate_interaction_score { d with red_flags_count := some k } := by
  refine ⟨?_, ?_, ?_, ?_, ?_, ?_, ?_, ?_, ?_, ?_, ?_, ?_, ?_, ?_, ?_, ?_, ?_, ?_, ?_, ?_,
    ?_, ?_, ?_, ?_, ?_, ?_⟩
  · simp [basicInfoScore, truthy] <;> linarith
  · simp [basicInfoScore, truthy] <;> linarith
  · simp [basicInfoScore, truthy] <;> linarith
  · simp [basicInfoScore, truthy] <;> linarith
  · simp [documentsScore, truthy] <;> linarith
  · simp [documentsScore, truthy] <;> push_cast <;> linarith
  · simp [documentsScore, truthy, reg_points] <;> linarith
  · simp [documentsScore, truthy, reg_points] <;> linarith
  · simp [documentsScore, truthy] <;> linarith
  · simp [documentsScore, truthy] <;> linarith
  · simp [documentsScore, truthy] <;> linarith
  · simp [calculate_quality_score, truthy, quality_points] <;> linarith
  · simp [calculate_quality_score, truthy, quality_points] <;> linarith
  · simp [calculate_quality_score, truthy, quality_points] <;> linarith
  · simp [calculate_quality_score, truthy, quality_points] <;> linarith
  · simp [calculate_quality_score, truthy, quality_points] <;> linarith
  · simp [calculate_quality_score, truthy, quality_points] <;> linarith
  · simp [calculate_quality_score, truthy, quality_points] <;> linarith
  · simp [calculate_quality_score, truthy, quality_points] <;> linarith
  · simp [calculate_quality_score, truthy, testimonial_points] <;> linarith
  · simp [calculate_quality_score, truthy, testimonial_points] <;> linarith
  · simp [calculate_quality_score, truthy] <;> linarith
  · simp [calculate_quality_score, truthy] <;> linarith
  · have hpre : interactionPreScore { d with responsiveness_rating := some k } ≤
        interactionPreScore { d with responsiveness_rating := some (k + 1) } := by
      simp [interactionPreScore] <;> push_cast <;> linarith
    simpa [calculate_interaction_score, interactionPenalty, red_flags] using
      sub_min_mono _ _ ((d.red_flags_count.getD 0 : ℚ) * 5) hpre
  · have hpre : interactionPreScore { d with communication_quality := some "unprofessional" } ≤
        interactionPreScore { d with communication_quality := some "professional" } := by
      simp [interactionPreScore, commLookup] <;> linarith
    simpa [calculate_interaction_score, interactionPenalty, red_flags] using
      sub_min_mono _ _ ((d.red_flags_count.getD 0 : ℚ) * 5) hpre
  · simp only [calculate_interaction_score, interactionPenalty, red_flags]
    have h5 : ((k : ℚ)) * 5 ≤ (((k + 1 : ℕ)) : ℚ) * 5 := by
      push_cast
      linarith
    have hmin : min ((k : ℚ) * 5) (interactionPreScore { d with red_flags_count := some k }) ≤
        min ((((k + 1 : ℕ)) : ℚ) * 5) (interactionPreScore { d with red_flags_count := some (k + 1) }) := by
      simp only [interactionPreScore]
      exact min_le_min h5 le_rfl
    have hp : interactionPreScore { d with red_flags_count := some (k + 1) } =
        interactionPreScore { d with red_flags_count := some k } := rfl
    simp only [Option.getD]
    rw [hp] at hmin ⊢
    exact sub_le_sub_left hmin _
